import Mathlib

/-!
Shallow embedding of the Circle-Crop application (src/App.tsx and the
CircleCropper component) for verification of its specification.

Numeric values are modelled over ℚ. JavaScript angles passed to
`ctx.rotate(deg * Math.PI / 180)` are represented symbolically in degrees
(the `rotateDeg` canvas operation), and full-circle arcs
`ctx.arc(cx, cy, r, 0, 2 * Math.PI)` are represented by `arcFull`.
Binary blob payloads are opaque and carried as strings; base64 decoding of
a payload is modelled as the identity on the opaque payload.
-/

namespace CircleCrop

/-- The crop transform state of CircleCropper: pan x/y, zoom, rotation in
degrees (interface CropState in the source). -/
structure CropState where
  x : ℚ
  y : ℚ
  zoom : ℚ
  rotation : ℚ
deriving Repr, DecidableEq

/-- Preview canvas edge length: the CircleCropper canvas is 800 by 800. -/
def previewCanvasEdge : ℚ := 800

/-- Mask radius used by the preview compositor: `radius = size * 0.4` in
`draw`. -/
def previewMaskRadius (size : ℚ) : ℚ := size * 0.4

/-- Export scale factor `S = exportSize / (800 * 0.8)` computed identically in
handleFinish, downloadImage, recordVideoExport and exportVideoAsSVG. -/
def exportScale (exportSize : ℚ) : ℚ := exportSize / (800 * 0.8)

/-- Initial crop state set once media is loaded (image onload / video
onloadeddata in CircleCropper): `canvasSize = 800`, `diameter = canvasSize *
0.8`, `initialScale = diameter / min(width, height)`, pan 0, rotation 0. -/
def initialCropState (mediaWidth mediaHeight : ℚ) : CropState :=
  let canvasSize : ℚ := 800
  let diameter := canvasSize * 0.8
  let initialScale := diameter / min mediaWidth mediaHeight
  { x := 0, y := 0, zoom := initialScale, rotation := 0 }

/-- Value clamping performed by an HTML range input with declared `min` and
`max` attributes: the input's value is always within the declared bounds, so
the value delivered to the onChange handler is the supplied value clamped.
The zoom slider declares min 0.1 / max 5 and the rotation slider declares
min -180 / max 180 in CircleCropper. -/
def rangeClamp (lo hi v : ℚ) : ℚ := max lo (min hi v)

/-- Zoom slider update: the range input (min 0.1, max 5) clamps the value and
the onChange handler stores it in the state's zoom field. -/
def setZoom (s : CropState) (z : ℚ) : CropState :=
  { s with zoom := rangeClamp 0.1 5 z }

/-- Rotation slider update: the range input (min -180, max 180) clamps the
value and the onChange handler stores it in the state's rotation field. -/
def setRotation (s : CropState) (deg : ℚ) : CropState :=
  { s with rotation := rangeClamp (-180) 180 deg }

/-- Pointer interaction state of CircleCropper: the crop state plus the
`dragging` flag and the `lastPos` recorded pointer coordinate. -/
structure DragState where
  crop : CropState
  dragging : Bool
  lastX : ℚ
  lastY : ℚ
deriving Repr, DecidableEq

/-- handleStart: enter dragging state and record the pointer coordinate. -/
def handleStart (s : DragState) (clientX clientY : ℚ) : DragState :=
  { s with dragging := true, lastX := clientX, lastY := clientY }

/-- handleMove: when dragging, add the delta from the previously recorded
coordinate to the pan and record the current coordinate; otherwise no-op. -/
def handleMove (s : DragState) (clientX clientY : ℚ) : DragState :=
  if s.dragging then
    let dx := clientX - s.lastX
    let dy := clientY - s.lastY
    { s with
      crop := { s.crop with x := s.crop.x + dx, y := s.crop.y + dy },
      lastX := clientX, lastY := clientY }
  else s

/-- Pointer-up / touch-end: leave dragging state (onMouseUp / onTouchEnd set
dragging to false). -/
def handleEnd (s : DragState) : DragState :=
  { s with dragging := false }

/-- Canvas composite operation values used by `draw`. -/
inductive CompositeOp where
  | sourceOver
  | destinationOut
deriving Repr, DecidableEq

/-- A color stop of a canvas linear gradient: offset and rgba components. -/
structure GradientStop where
  offset : ℚ
  red : ℚ
  green : ℚ
  blue : ℚ
  alpha : ℚ
deriving Repr, DecidableEq

/-- Canvas 2D operations issued by the preview compositor, in issue order.
`setFilter b k` stands for `ctx.filter = 'blur(bpx) brightness(k)'`,
`rotateDeg d` for `ctx.rotate(d * Math.PI / 180)`, `arcFull cx cy r` for
`ctx.arc(cx, cy, r, 0, 2 * Math.PI)`, and `drawImage dx dy` for drawing the
current media with its top-left corner at (dx, dy). -/
inductive CanvasOp where
  | clearRect (x y w h : ℚ)
  | save
  | restore
  | setFilter (blurPx brightness : ℚ)
  | translate (tx ty : ℚ)
  | rotateDeg (deg : ℚ)
  | scale (sx sy : ℚ)
  | drawImage (dx dy : ℚ)
  | setFillRGBA (r g b a : ℚ)
  | fillRect (x y w h : ℚ)
  | setComposite (op : CompositeOp)
  | beginPath
  | arcFull (cx cy radius : ℚ)
  | fill
  | clip
  | setStrokeLinearGradient (x0 y0 x1 y1 : ℚ) (stops : List GradientStop)
  | setLineWidth (w : ℚ)
  | stroke
deriving Repr, DecidableEq

/-- The preview compositor `draw` of CircleCropper, transcribed as the list of
canvas operations it issues for one frame, given the canvas size, the crop
state and the media's intrinsic dimensions. -/
def draw (size : ℚ) (state : CropState) (mediaWidth mediaHeight : ℚ) :
    List CanvasOp :=
  let centerX := size / 2
  let centerY := size / 2
  let radius := previewMaskRadius size
  [CanvasOp.clearRect 0 0 size size,
   -- 1. Background (Blurred)
   CanvasOp.save,
   CanvasOp.setFilter 20 0.4,
   CanvasOp.translate (centerX + state.x) (centerY + state.y),
   CanvasOp.rotateDeg state.rotation,
   CanvasOp.scale state.zoom state.zoom,
   CanvasOp.drawImage (-(mediaWidth / 2)) (-(mediaHeight / 2)),
   CanvasOp.restore,
   -- 2. Overlay
   CanvasOp.setFillRGBA 0 0 0 0.5,
   CanvasOp.fillRect 0 0 size size,
   -- 3. Mask Cutout
   CanvasOp.setComposite CompositeOp.destinationOut,
   CanvasOp.beginPath,
   CanvasOp.arcFull centerX centerY radius,
   CanvasOp.fill,
   CanvasOp.setComposite CompositeOp.sourceOver,
   -- 4. Actual Image/Video in Circle
   CanvasOp.save,
   CanvasOp.beginPath,
   CanvasOp.arcFull centerX centerY radius,
   CanvasOp.clip,
   CanvasOp.translate (centerX + state.x) (centerY + state.y),
   CanvasOp.rotateDeg state.rotation,
   CanvasOp.scale state.zoom state.zoom,
   CanvasOp.drawImage (-(mediaWidth / 2)) (-(mediaHeight / 2)),
   CanvasOp.restore,
   -- 5. Glossy Border
   CanvasOp.beginPath,
   CanvasOp.arcFull centerX centerY radius,
   CanvasOp.setStrokeLinearGradient 0 (centerY - radius) 0 (centerY + radius)
     [⟨0, 255, 255, 255, 0.6⟩, ⟨1, 255, 255, 255, 0.1⟩],
   CanvasOp.setLineWidth 4,
   CanvasOp.stroke]

/-- The geometric parameters of one circular-clipped export render: the export
edge length, the clip circle radius, the translate applied after clipping,
the rotation in degrees, the uniform scale factor, and the media draw
position relative to the transformed origin. -/
structure ExportRender where
  exportSize : ℚ
  clipRadius : ℚ
  translateX : ℚ
  translateY : ℚ
  rotationDeg : ℚ
  scaleFactor : ℚ
  drawX : ℚ
  drawY : ℚ
deriving Repr, DecidableEq

/-- handleFinish image branch: exportSize 1024, circular clip of radius
exportSize / 2, translate to (exportSize / 2 + x * S, exportSize / 2 + y * S)
with S = exportSize / (800 * 0.8), rotate, scale by zoom * S, draw the media
at (-width / 2, -height / 2). The PNG blob is encoded from this canvas. -/
def handleFinishImageRender (state : CropState) (mediaWidth mediaHeight : ℚ) :
    ExportRender :=
  let exportSize : ℚ := 1024
  let S := exportSize / (800 * 0.8)
  { exportSize := exportSize,
    clipRadius := exportSize / 2,
    translateX := exportSize / 2 + state.x * S,
    translateY := exportSize / 2 + state.y * S,
    rotationDeg := state.rotation,
    scaleFactor := state.zoom * S,
    drawX := -(mediaWidth / 2),
    drawY := -(mediaHeight / 2) }

/-- downloadImage jpg branch: white fill, then the same circular-clipped
render at exportSize 1024 encoded as image/jpeg at quality 0.9. -/
def jpgExportRender (state : CropState) (mediaWidth mediaHeight : ℚ) :
    ExportRender :=
  let exportSize : ℚ := 1024
  let S := exportSize / (800 * 0.8)
  { exportSize := exportSize,
    clipRadius := exportSize / 2,
    translateX := exportSize / 2 + state.x * S,
    translateY := exportSize / 2 + state.y * S,
    rotationDeg := state.rotation,
    scaleFactor := state.zoom * S,
    drawX := -(mediaWidth / 2),
    drawY := -(mediaHeight / 2) }

/-- downloadImage svg branch: SVG clipPath circle of radius exportSize / 2 and
image transform string translate(exportSize / 2 + x * S, exportSize / 2 +
y * S) rotate(rotation) scale(zoom * S) translate(-width / 2, -height / 2),
with exportSize 1024. -/
def svgImageRender (state : CropState) (mediaWidth mediaHeight : ℚ) :
    ExportRender :=
  let exportSize : ℚ := 1024
  let S := exportSize / (800 * 0.8)
  { exportSize := exportSize,
    clipRadius := exportSize / 2,
    translateX := exportSize / 2 + state.x * S,
    translateY := exportSize / 2 + state.y * S,
    rotationDeg := state.rotation,
    scaleFactor := state.zoom * S,
    drawX := -(mediaWidth / 2),
    drawY := -(mediaHeight / 2) }

/-- recordVideoExport per-frame render: exportSize 720, circular clip of
radius exportSize / 2, then the same translate / rotate / scale and centered
drawImage of the live video frame. -/
def webmFrameRender (state : CropState) (mediaWidth mediaHeight : ℚ) :
    ExportRender :=
  let exportSize : ℚ := 720
  let S := exportSize / (800 * 0.8)
  { exportSize := exportSize,
    clipRadius := exportSize / 2,
    translateX := exportSize / 2 + state.x * S,
    translateY := exportSize / 2 + state.y * S,
    rotationDeg := state.rotation,
    scaleFactor := state.zoom * S,
    drawX := -(mediaWidth / 2),
    drawY := -(mediaHeight / 2) }

/-- The frame rate passed to `canvas.captureStream(30)` in
recordVideoExport. -/
def captureFrameRate : ℚ := 30

/-- JavaScript `v || dflt` on a number: NaN (modelled as `none`) and 0 are
falsy and give the default; any other number is returned unchanged. -/
def jsOrNum (v : Option ℚ) (dflt : ℚ) : ℚ :=
  match v with
  | none => dflt
  | some x => if x = 0 then dflt else x

/-- recordVideoExport capture duration:
`Math.min(video.duration || 5, 10)`. -/
def recordDuration (videoDuration : Option ℚ) : ℚ :=
  min (jsOrNum videoDuration 5) 10

/-- Progress reported each frame of recordVideoExport:
`Math.min(100, (elapsed / duration) * 100)`. -/
def recordingProgress (elapsed duration : ℚ) : ℚ :=
  min 100 (elapsed / duration * 100)

/-- Stop condition checked each frame of recordVideoExport (after reporting
progress): `elapsed >= duration || video.ended`. -/
def frameStops (elapsed duration : ℚ) (ended : Bool) : Bool :=
  decide (duration ≤ elapsed) || ended

/-- JavaScript `v || dflt` on an optional string: undefined (`none`) and the
empty string are falsy and give the default. -/
def jsOrString (v : Option String) (dflt : String) : String :=
  match v with
  | none => dflt
  | some s => if s = "" then dflt else s

/-- URL.createObjectURL, modelled as injective tagging of the opaque blob
payload. -/
def createObjectURL (blob : String) : String :=
  String.append "blob:" blob

/-- A drawable media reference (image or video element) with its intrinsic
pixel dimensions. -/
structure MediaRef where
  width : ℚ
  height : ℚ
deriving Repr, DecidableEq

/-- The ExportResult interface: blob payload, crop state snapshot, source
media reference, isVideo flag and the optional bgRemoved flag (false when
absent). -/
structure ExportResultM where
  blob : String
  state : CropState
  source : MediaRef
  isVideo : Bool
  bgRemoved : Bool
deriving Repr, DecidableEq

/-- The export formats of App.tsx. -/
inductive ExportFormat where
  | png
  | jpg
  | svg
  | mp4
deriving Repr, DecidableEq

/-- The App component state relevant to export and background removal:
sourceData (source URI and isVideo), exportData, previewUrl, currentFormat
and isProcessing, plus an `alerted` flag recording that `alert(...)` was
shown to the user. -/
structure AppState where
  sourceData : Option (String × Bool)
  exportData : Option ExportResultM
  previewUrl : Option String
  currentFormat : ExportFormat
  isProcessing : Bool
  alerted : Bool
deriving Repr, DecidableEq

/-- onCropComplete, video branch: set currentFormat to mp4, create an object
URL for the still-frame blob as previewUrl, store the export result, clear
sourceData, and clear isProcessing. -/
def onCropCompleteVideo (app : AppState) (result : ExportResultM) : AppState :=
  { app with
    currentFormat := ExportFormat.mp4,
    previewUrl := some (createObjectURL result.blob),
    exportData := some result,
    sourceData := none,
    isProcessing := false }

/-- The SVG video-container document produced by exportVideoAsSVG: clipPath
circle radius, the CSS transform components applied to the flex-centered
video element, the video element's declared width / height, and the `src`
written into the nested `source` element. -/
structure VideoSVG where
  exportSize : ℚ
  clipRadius : ℚ
  translateX : ℚ
  translateY : ℚ
  rotationDeg : ℚ
  scaleFactor : ℚ
  videoWidth : ℚ
  videoHeight : ℚ
  sourceSrc : String
deriving Repr, DecidableEq

/-- exportVideoAsSVG: guarded on exportData present and isVideo; builds an
SVG with a clipPath circle of radius exportSize / 2 (exportSize 1024), a
foreignObject-hosted video with CSS transform translate(x * S, y * S)
rotate(rotation) scale(zoom * S) where S = exportSize / (800 * 0.8), and a
source element whose src is `sourceData?.src || ''`. -/
def exportVideoAsSVGModel (app : AppState) : Option VideoSVG :=
  match app.exportData with
  | none => none
  | some ed =>
    if ed.isVideo then
      let exportSize : ℚ := 1024
      let S := exportSize / (800 * 0.8)
      some
        { exportSize := exportSize,
          clipRadius := exportSize / 2,
          translateX := ed.state.x * S,
          translateY := ed.state.y * S,
          rotationDeg := ed.state.rotation,
          scaleFactor := ed.state.zoom * S,
          videoWidth := ed.source.width,
          videoHeight := ed.source.height,
          sourceSrc := jsOrString (Option.map Prod.fst app.sourceData) "" }
    else none

/-- Effective position of the video's center inside the SVG container
produced by exportVideoAsSVG, modelled from the CSS semantics of its markup:
the foreignObject hosts a div of the container's full size with flex
centering (display flex, align-items center, justify-content center), which
places the video element's center at the container center
(exportSize / 2, exportSize / 2); the CSS transform
translate(tx, ty) rotate(r) scale(s) then moves that center by the leading
translation, while the rotation and scaling act about the CSS default
transform origin — the element's own center — and therefore leave the center
point fixed. So the media center lands at
(exportSize / 2 + tx, exportSize / 2 + ty), rotated by r and scaled by s
about that point. -/
def videoSVGEffectiveCenter (svg : VideoSVG) : ℚ × ℚ :=
  (svg.exportSize / 2 + svg.translateX, svg.exportSize / 2 + svg.translateY)

/-- One part of the background-removal response; `inlineData` carries the
base64 payload of an inline image part when present. -/
structure ResponsePart where
  inlineData : Option String
deriving Repr, DecidableEq

/-- Outcome of the background-removal network call: either the call threw
(failure: network error, timeout, or malformed response) or it returned a
list of response parts. -/
inductive BGResponse where
  | failure
  | success (parts : List ResponsePart)

/-- The response-scanning loop of removeBackground: `newImageBase64` starts
empty and takes the data of the first part with inlineData, breaking out of
the loop; parts without inlineData are skipped. -/
def firstInlineImage : List ResponsePart → String
  | [] => ""
  | p :: ps =>
    match p.inlineData with
    | some d => d
    | none => firstInlineImage ps

/-- removeBackground: returns unmodified when there is no export data or the
export is a video; on a thrown error the catch block alerts the user and the
finally block clears isProcessing; on success the first inline-image part, if
any and nonempty, replaces the blob, sets bgRemoved and refreshes previewUrl,
and otherwise nothing is touched; the finally block always clears
isProcessing on the non-guard paths. -/
def removeBackground (app : AppState) (resp : BGResponse) : AppState :=
  match app.exportData with
  | none => app
  | some ed =>
    if ed.isVideo then app
    else
      match resp with
      | BGResponse.failure =>
          { app with isProcessing := false, alerted := true }
      | BGResponse.success parts =>
          let newImageBase64 := firstInlineImage parts
          if newImageBase64 = "" then
            { app with isProcessing := false }
          else
            { app with
              previewUrl := some (createObjectURL newImageBase64),
              exportData := some { ed with blob := newImageBase64,
                                           bgRemoved := true },
              isProcessing := false }

/-- Helper: when no response part carries inline data, the scanning loop
leaves `newImageBase64` empty. -/
theorem firstInlineImage_eq_empty (parts : List ResponsePart)
    (h : ∀ p ∈ parts, p.inlineData = none) : firstInlineImage parts = "" := by
  induction parts with
  | nil => rfl
  | cons p ps ih =>
      have hp : p.inlineData = none := h p (List.mem_cons_self p ps)
      have hps : ∀ q ∈ ps, q.inlineData = none := fun q hq =>
        h q (List.mem_cons_of_mem p hq)
      simp [firstInlineImage, hp, ih hps]

/-- C1: every export re-render applies the sharp-layer transform scaled by
S = exportSize / (800 * 0.8): it translates to (E/2 + panX*S, E/2 + panY*S),
rotates by the rotation in degrees, scales by zoom*S and draws the media
centered on its midpoint. This holds for the handleFinish PNG, downloadImage
JPEG and SVG, and recordVideoExport frame renders directly, and for the SVG
video container through the flex-centered CSS transform: its literal CSS
translation is (panX*S, panY*S), and composed with the flex centering the
media center lands at (E/2 + panX*S, E/2 + panY*S), rotated by the rotation
and scaled by zoom*S about that point (videoSVGEffectiveCenter). Exporting
the 1024px PNG from a preview with pan (50, 0), zoom 1, rotation 0 places the
media center 50 * (1024 / 640) = 80px from the export canvas center along
x. -/
theorem c1_export_transform (st : CropState) (w h : ℚ) (app : AppState)
    (ed : ExportResultM) (hed : app.exportData = some ed)
    (hv : ed.isVideo = true) :
    Option.map videoSVGEffectiveCenter (exportVideoAsSVGModel app)
        = some (1024 / 2 + ed.state.x * exportScale 1024,
                1024 / 2 + ed.state.y * exportScale 1024) ∧
    Option.map VideoSVG.rotationDeg (exportVideoAsSVGModel app)
        = some ed.state.rotation ∧
    Option.map VideoSVG.scaleFactor (exportVideoAsSVGModel app)
        = some (ed.state.zoom * exportScale 1024) ∧
    (handleFinishImageRender st w h).translateX
        = 1024 / 2 + st.x * exportScale 1024 ∧
    (handleFinishImageRender st w h).translateY
        = 1024 / 2 + st.y * exportScale 1024 ∧
    (handleFinishImageRender st w h).rotationDeg = st.rotation ∧
    (handleFinishImageRender st w h).scaleFactor = st.zoom * exportScale 1024 ∧
    (handleFinishImageRender st w h).drawX = -(w / 2) ∧
    (handleFinishImageRender st w h).drawY = -(h / 2) ∧
    (jpgExportRender st w h).translateX = 1024 / 2 + st.x * exportScale 1024 ∧
    (jpgExportRender st w h).translateY = 1024 / 2 + st.y * exportScale 1024 ∧
    (jpgExportRender st w h).rotationDeg = st.rotation ∧
    (jpgExportRender st w h).scaleFactor = st.zoom * exportScale 1024 ∧
    (svgImageRender st w h).translateX = 1024 / 2 + st.x * exportScale 1024 ∧
    (svgImageRender st w h).translateY = 1024 / 2 + st.y * exportScale 1024 ∧
    (svgImageRender st w h).rotationDeg = st.rotation ∧
    (svgImageRender st w h).scaleFactor = st.zoom * exportScale 1024 ∧
    (webmFrameRender st w h).translateX = 720 / 2 + st.x * exportScale 720 ∧
    (webmFrameRender st w h).translateY = 720 / 2 + st.y * exportScale 720 ∧
    (webmFrameRender st w h).rotationDeg = st.rotation ∧
    (webmFrameRender st w h).scaleFactor = st.zoom * exportScale 720 ∧
    (handleFinishImageRender ⟨50, 0, 1, 0⟩ w h).translateX - 1024 / 2
        = 50 * (1024 / 640) ∧
    (50 : ℚ) * (1024 / 640) = 80 := by
  refine ⟨?_, ?_, ?_, rfl, rfl, rfl, rfl, rfl, rfl, rfl, rfl, rfl, rfl, rfl,
    rfl, rfl, rfl, rfl, rfl, rfl, rfl, ?_, ?_⟩ <;>
    norm_num [handleFinishImageRender, exportScale, exportVideoAsSVGModel,
      videoSVGEffectiveCenter, hed, hv]

/-- Concrete crop state used to witness C1. -/
def c1State : CropState := ⟨50, 0, 1, 0⟩

/-- Concrete video crop result used to witness C1. -/
def c1Result : ExportResultM :=
  ⟨"frame", ⟨50, 0, 1, 0⟩, ⟨1920, 1080⟩, true, false⟩

/-- Concrete app state used to witness C1. -/
def c1App : AppState :=
  ⟨some ("clip.mp4", true), some c1Result, some "blob:frame",
    ExportFormat.mp4, false, false⟩

/-- C1 witness: the export-transform properties instantiated at the crop
state c1State, a 1920 x 1080 media, and the video session c1App /
c1Result. -/
theorem c1_export_transform_witness :
    c1App.exportData = some c1Result ∧ c1Result.isVideo = true ∧
    (Option.map videoSVGEffectiveCenter (exportVideoAsSVGModel c1App)
        = some (1024 / 2 + c1Result.state.x * exportScale 1024,
                1024 / 2 + c1Result.state.y * exportScale 1024) ∧
    Option.map VideoSVG.rotationDeg (exportVideoAsSVGModel c1App)
        = some c1Result.state.rotation ∧
    Option.map VideoSVG.scaleFactor (exportVideoAsSVGModel c1App)
        = some (c1Result.state.zoom * exportScale 1024) ∧
    (handleFinishImageRender c1State 2000 1000).translateX
        = 1024 / 2 + c1State.x * exportScale 1024 ∧
    (handleFinishImageRender c1State 2000 1000).translateY
        = 1024 / 2 + c1State.y * exportScale 1024 ∧
    (handleFinishImageRender c1State 2000 1000).rotationDeg
        = c1State.rotation ∧
    (handleFinishImageRender c1State 2000 1000).scaleFactor
        = c1State.zoom * exportScale 1024 ∧
    (handleFinishImageRender c1State 2000 1000).drawX = -(2000 / 2) ∧
    (handleFinishImageRender c1State 2000 1000).drawY = -(1000 / 2) ∧
    (jpgExportRender c1State 2000 1000).translateX
        = 1024 / 2 + c1State.x * exportScale 1024 ∧
    (jpgExportRender c1State 2000 1000).translateY
        = 1024 / 2 + c1State.y * exportScale 1024 ∧
    (jpgExportRender c1State 2000 1000).rotationDeg = c1State.rotation ∧
    (jpgExportRender c1State 2000 1000).scaleFactor
        = c1State.zoom * exportScale 1024 ∧
    (svgImageRender c1State 2000 1000).translateX
        = 1024 / 2 + c1State.x * exportScale 1024 ∧
    (svgImageRender c1State 2000 1000).translateY
        = 1024 / 2 + c1State.y * exportScale 1024 ∧
    (svgImageRender c1State 2000 1000).rotationDeg = c1State.rotation ∧
    (svgImageRender c1State 2000 1000).scaleFactor
        = c1State.zoom * exportScale 1024 ∧
    (webmFrameRender c1State 2000 1000).translateX
        = 720 / 2 + c1State.x * exportScale 720 ∧
    (webmFrameRender c1State 2000 1000).translateY
        = 720 / 2 + c1State.y * exportScale 720 ∧
    (webmFrameRender c1State 2000 1000).rotationDeg = c1State.rotation ∧
    (webmFrameRender c1State 2000 1000).scaleFactor
        = c1State.zoom * exportScale 720 ∧
    (handleFinishImageRender ⟨50, 0, 1, 0⟩ 2000 1000).translateX - 1024 / 2
        = 50 * (1024 / 640) ∧
    (50 : ℚ) * (1024 / 640) = 80) :=
  ⟨rfl, rfl, c1_export_transform c1State 2000 1000 c1App c1Result rfl rfl⟩

/-- C2 counterexample: the claim says every render, preview or export, uses a
mask radius of exactly 0.4 times the canvas edge; but the handleFinish PNG
export at edge 1024 clips to a circle of radius 1024 / 2 = 512, while
0.4 * 1024 = 409.6. -/
theorem c2_counterexample :
    ¬ ((handleFinishImageRender ⟨0, 0, 1, 0⟩ 100 100).clipRadius
        = 0.4 * (handleFinishImageRender ⟨0, 0, 1, 0⟩ 100 100).exportSize) := by
  norm_num [handleFinishImageRender]

/-- C2 amended: the preview compositor's mask radius is exactly 0.4 times the
canvas edge, while every export render clips to a circle of radius half its
export edge; that export radius equals the preview mask radius (0.4 * 800)
scaled by the export scale S = E / (800 * 0.8), so preview and export agree
geometrically. -/
theorem c2_mask_radius (size : ℚ) (st : CropState) (w h : ℚ) :
    previewMaskRadius size = 0.4 * size ∧
    (handleFinishImageRender st w h).clipRadius = 1024 / 2 ∧
    (jpgExportRender st w h).clipRadius = 1024 / 2 ∧
    (svgImageRender st w h).clipRadius = 1024 / 2 ∧
    (webmFrameRender st w h).clipRadius = 720 / 2 ∧
    (handleFinishImageRender st w h).clipRadius
        = previewMaskRadius 800 * exportScale 1024 ∧
    (webmFrameRender st w h).clipRadius
        = previewMaskRadius 800 * exportScale 720 := by
  refine ⟨by rw [previewMaskRadius, mul_comm], rfl, rfl, rfl, rfl, ?_, ?_⟩ <;>
    norm_num [handleFinishImageRender, webmFrameRender, previewMaskRadius,
      exportScale]

/-- C3: the preview compositor issues exactly this sequence of operations:
clear; blurred (20px) and darkened (brightness 0.4) full media under the
pan / rotate / zoom transform with the source centered on its midpoint; a
black rectangle at alpha 0.5 over the whole canvas; a destructive
(destination-out) circular erase of radius 0.4 * edge; the sharp media
re-drawn with the identical transform clipped to that circle; and a 4px
circle stroke with a vertical white gradient from 60% alpha at the circle's
top to 10% alpha at its bottom. -/
theorem c3_draw_layer_order (size : ℚ) (st : CropState) (w h : ℚ) :
    draw size st w h =
      [CanvasOp.clearRect 0 0 size size,
       CanvasOp.save,
       CanvasOp.setFilter 20 0.4,
       CanvasOp.translate (size / 2 + st.x) (size / 2 + st.y),
       CanvasOp.rotateDeg st.rotation,
       CanvasOp.scale st.zoom st.zoom,
       CanvasOp.drawImage (-(w / 2)) (-(h / 2)),
       CanvasOp.restore,
       CanvasOp.setFillRGBA 0 0 0 0.5,
       CanvasOp.fillRect 0 0 size size,
       CanvasOp.setComposite CompositeOp.destinationOut,
       CanvasOp.beginPath,
       CanvasOp.arcFull (size / 2) (size / 2) (size * 0.4),
       CanvasOp.fill,
       CanvasOp.setComposite CompositeOp.sourceOver,
       CanvasOp.save,
       CanvasOp.beginPath,
       CanvasOp.arcFull (size / 2) (size / 2) (size * 0.4),
       CanvasOp.clip,
       CanvasOp.translate (size / 2 + st.x) (size / 2 + st.y),
       CanvasOp.rotateDeg st.rotation,
       CanvasOp.scale st.zoom st.zoom,
       CanvasOp.drawImage (-(w / 2)) (-(h / 2)),
       CanvasOp.restore,
       CanvasOp.beginPath,
       CanvasOp.arcFull (size / 2) (size / 2) (size * 0.4),
       CanvasOp.setStrokeLinearGradient 0 (size / 2 - size * 0.4) 0
         (size / 2 + size * 0.4)
         [⟨0, 255, 255, 255, 0.6⟩, ⟨1, 255, 255, 255, 0.1⟩],
       CanvasOp.setLineWidth 4,
       CanvasOp.stroke] := by
  simp [draw, previewMaskRadius]

/-- C5: immediately after media load the crop state has zoom =
(800 * 0.8) / min(mediaWidth, mediaHeight), pan (0, 0) and rotation 0; in
particular a 2000 x 1000 image yields initial zoom 0.64. -/
theorem c5_initial_state (w h : ℚ) :
    (initialCropState w h).zoom = 800 * 0.8 / min w h ∧
    (initialCropState w h).x = 0 ∧
    (initialCropState w h).y = 0 ∧
    (initialCropState w h).rotation = 0 ∧
    (initialCropState 2000 1000).zoom = 0.64 := by
  refine ⟨rfl, rfl, rfl, rfl, ?_⟩
  norm_num [initialCropState]

/-- C6: setting zoom clamps the supplied value to the interval from 0.1 to 5
and setting rotation clamps to the interval from -180 to 180; both setters
are idempotent under clamping, and setZoom at 10 yields zoom 5 both times. -/
theorem c6_clamped_setters (s : CropState) (z deg : ℚ) :
    (0.1 ≤ (setZoom s z).zoom ∧ (setZoom s z).zoom ≤ 5) ∧
    (-180 ≤ (setRotation s deg).rotation ∧
      (setRotation s deg).rotation ≤ 180) ∧
    setZoom (setZoom s z) z = setZoom s z ∧
    setRotation (setRotation s deg) deg = setRotation s deg ∧
    (setZoom s 10).zoom = 5 ∧
    setZoom (setZoom s 10) 10 = setZoom s 10 := by
  refine ⟨⟨le_max_left _ _, max_le (by norm_num) (min_le_left _ _)⟩,
    ⟨le_max_left _ _, max_le (by norm_num) (min_le_left _ _)⟩,
    rfl, rfl, ?_, rfl⟩
  show rangeClamp 0.1 5 10 = 5
  norm_num [rangeClamp]

/-- C10: when the video's reported duration is falsy (NaN, modelled as none,
or zero) at the start of animated recording, the capture duration defaults to
min(5, 10) = 5 seconds, a positive duration rather than zero frames. -/
theorem c10_zero_duration_default :
    recordDuration none = 5 ∧
    recordDuration (some 0) = 5 ∧
    recordDuration none = min 5 10 ∧
    0 < recordDuration none := by
  refine ⟨?_, ?_, ?_, ?_⟩ <;> norm_num [recordDuration, jsOrNum]

/-- C4: animated export captures the canvas stream at a fixed 30 frames per
second for min(videoDuration, 10) seconds, reports progress within 0 to 100
each frame, and stops at the earlier of the time cap and the end of source
playback; with a 15 second video the duration is capped at 10 seconds,
progress stays below 100 strictly before the cap and equals 100 exactly when
the stop condition first holds. -/
theorem c4_recording (elapsed d : ℚ) (he : 0 ≤ elapsed) (hd : 0 < d) :
    captureFrameRate = 30 ∧
    recordDuration (some d) = min d 10 ∧
    recordDuration (some 15) = 10 ∧
    (0 ≤ recordingProgress elapsed d ∧ recordingProgress elapsed d ≤ 100) ∧
    frameStops elapsed d true = true ∧
    (frameStops elapsed d false = true ↔ d ≤ elapsed) ∧
    (elapsed < 10 → recordingProgress elapsed 10 < 100) ∧
    (10 ≤ elapsed → recordingProgress elapsed 10 = 100) := by
  have hx : elapsed / 10 * 100 = elapsed * 10 := by ring
  refine ⟨rfl, ?_, ?_, ⟨?_, min_le_left _ _⟩, ?_, ?_, ?_, ?_⟩
  · simp [recordDuration, jsOrNum, hd.ne']
  · norm_num [recordDuration, jsOrNum]
  · exact le_min (by norm_num)
      (mul_nonneg (div_nonneg he hd.le) (by norm_num))
  · simp [frameStops]
  · simp [frameStops]
  · intro hlt
    have h2 : elapsed / 10 * 100 < 100 := by rw [hx]; linarith
    show min (100 : ℚ) (elapsed / 10 * 100) < 100
    exact lt_of_le_of_lt (min_le_right _ _) h2
  · intro hge
    have : (100 : ℚ) ≤ elapsed / 10 * 100 := by rw [hx]; linarith
    simpa [recordingProgress] using min_eq_left this

/-- C4 witness: the recording properties instantiated at elapsed 10,
duration 10. -/
theorem c4_recording_witness :
    (0 ≤ (10 : ℚ)) ∧ (0 < (10 : ℚ)) ∧
    (captureFrameRate = 30 ∧
     recordDuration (some 10) = min 10 10 ∧
     recordDuration (some 15) = 10 ∧
     (0 ≤ recordingProgress 10 10 ∧ recordingProgress 10 10 ≤ 100) ∧
     frameStops 10 10 true = true ∧
     (frameStops 10 10 false = true ↔ (10 : ℚ) ≤ 10) ∧
     ((10 : ℚ) < 10 → recordingProgress 10 10 < 100) ∧
     ((10 : ℚ) ≤ 10 → recordingProgress 10 10 = 100)) :=
  ⟨by norm_num, by norm_num, c4_recording 10 10 (by norm_num) (by norm_num)⟩

/-- C7: while dragging, two successive moves compose additively (same pan as
one move by the summed deltas); each move adds the delta from the previously
recorded coordinate and records the current one; a drag from (100, 100) to
(130, 145) changes pan by (30, 45); and pointer-down followed by pointer-up
without a move leaves the pan unchanged. -/
theorem c7_drag (s : DragState) (px py dx1 dy1 dx2 dy2 cx cy : ℚ)
    (hdrag : s.dragging = true) (hx : s.lastX = px) (hy : s.lastY = py) :
    handleMove (handleMove s (px + dx1) (py + dy1))
        (px + dx1 + dx2) (py + dy1 + dy2)
      = handleMove s (px + (dx1 + dx2)) (py + (dy1 + dy2)) ∧
    (handleMove s cx cy).crop.x = s.crop.x + (cx - s.lastX) ∧
    (handleMove s cx cy).crop.y = s.crop.y + (cy - s.lastY) ∧
    (handleMove s cx cy).lastX = cx ∧
    (handleMove s cx cy).lastY = cy ∧
    (handleMove (handleStart s 100 100) 130 145).crop.x = s.crop.x + 30 ∧
    (handleMove (handleStart s 100 100) 130 145).crop.y = s.crop.y + 45 ∧
    (handleEnd (handleStart s cx cy)).crop = s.crop := by
  refine ⟨?_, ?_, ?_, ?_, ?_, ?_, ?_, rfl⟩ <;>
    simp [handleMove, handleStart, hdrag, hx, hy] <;> (ring_nf; try simp)

/-- Concrete drag state used to witness C7. -/
def c7Drag : DragState := ⟨⟨0, 0, 1, 0⟩, true, 100, 100⟩

/-- C7 witness: the drag properties instantiated at the state c7Drag with
deltas (10, 20) then (5, 6) and a move to (130, 145). -/
theorem c7_drag_witness :
    c7Drag.dragging = true ∧ c7Drag.lastX = 100 ∧ c7Drag.lastY = 100 ∧
    (handleMove (handleMove c7Drag (100 + 10) (100 + 20))
        (100 + 10 + 5) (100 + 20 + 6)
      = handleMove c7Drag (100 + (10 + 5)) (100 + (20 + 6)) ∧
    (handleMove c7Drag 130 145).crop.x = c7Drag.crop.x + (130 - c7Drag.lastX) ∧
    (handleMove c7Drag 130 145).crop.y = c7Drag.crop.y + (145 - c7Drag.lastY) ∧
    (handleMove c7Drag 130 145).lastX = 130 ∧
    (handleMove c7Drag 130 145).lastY = 145 ∧
    (handleMove (handleStart c7Drag 100 100) 130 145).crop.x
      = c7Drag.crop.x + 30 ∧
    (handleMove (handleStart c7Drag 100 100) 130 145).crop.y
      = c7Drag.crop.y + 45 ∧
    (handleEnd (handleStart c7Drag 130 145)).crop = c7Drag.crop) :=
  ⟨rfl, rfl, rfl, c7_drag c7Drag 100 100 10 20 5 6 130 145 rfl rfl rfl⟩

/-- C8: after a video crop completes, sourceData has been cleared, so the SVG
video container produced by exportVideoAsSVG carries the crop's CSS
translate / rotate / scale and the circular clipPath but embeds a source
element whose src is the empty string: the produced file cannot play the
original source video, contradicting the spec's stated intent. -/
theorem c8_video_svg_source (app : AppState) (result : ExportResultM)
    (hv : result.isVideo = true) :
    (onCropCompleteVideo app result).sourceData = none ∧
    exportVideoAsSVGModel (onCropCompleteVideo app result) =
      some { exportSize := 1024,
             clipRadius := 1024 / 2,
             translateX := result.state.x * exportScale 1024,
             translateY := result.state.y * exportScale 1024,
             rotationDeg := result.state.rotation,
             scaleFactor := result.state.zoom * exportScale 1024,
             videoWidth := result.source.width,
             videoHeight := result.source.height,
             sourceSrc := "" } := by
  refine ⟨rfl, ?_⟩
  simp [onCropCompleteVideo, exportVideoAsSVGModel, hv, jsOrString,
    exportScale]

/-- Concrete app state used to witness C8. -/
def c8App : AppState :=
  ⟨some ("video.mp4", true), none, none, ExportFormat.png, false, false⟩

/-- Concrete video crop result used to witness C8. -/
def c8Result : ExportResultM := ⟨"still", ⟨3, 4, 2, 90⟩, ⟨640, 480⟩, true, false⟩

/-- C8 witness: the empty-source SVG container produced for the concrete
video session c8App / c8Result. -/
theorem c8_video_svg_source_witness :
    c8Result.isVideo = true ∧
    ((onCropCompleteVideo c8App c8Result).sourceData = none ∧
     exportVideoAsSVGModel (onCropCompleteVideo c8App c8Result) =
       some { exportSize := 1024,
              clipRadius := 1024 / 2,
              translateX := c8Result.state.x * exportScale 1024,
              translateY := c8Result.state.y * exportScale 1024,
              rotationDeg := c8Result.state.rotation,
              scaleFactor := c8Result.state.zoom * exportScale 1024,
              videoWidth := c8Result.source.width,
              videoHeight := c8Result.source.height,
              sourceSrc := "" }) :=
  ⟨rfl, c8_video_svg_source c8App c8Result rfl⟩

/-- C9: for a non-video export artifact, a background-removal response with
no inline-image part leaves the artifact (blob bytes and bgRemoved flag)
unchanged and only clears the processing flag, with no alert; a failed call
leaves the artifact unchanged, alerts the user, and clears the processing
flag. The transition function is total, so no exception escapes the action
boundary. -/
theorem c9_remove_background_safe (app : AppState) (ed : ExportResultM)
    (parts : List ResponsePart)
    (hed : app.exportData = some ed) (hiv : ed.isVideo = false)
    (hparts : ∀ p ∈ parts, p.inlineData = none) :
    removeBackground app (BGResponse.success parts)
        = { app with isProcessing := false } ∧
    (removeBackground app (BGResponse.success parts)).exportData
        = app.exportData ∧
    (removeBackground app (BGResponse.success parts)).alerted = app.alerted ∧
    removeBackground app BGResponse.failure
        = { app with isProcessing := false, alerted := true } ∧
    (removeBackground app BGResponse.failure).exportData = app.exportData := by
  have h1 : firstInlineImage parts = "" :=
    firstInlineImage_eq_empty parts hparts
  refine ⟨?_, ?_, ?_, ?_, ?_⟩ <;>
    simp [removeBackground, hed, hiv, h1]

/-- Concrete non-video export artifact used to witness C9. -/
def c9Ed : ExportResultM := ⟨"origblob", ⟨0, 0, 1, 0⟩, ⟨800, 600⟩, false, false⟩

/-- Concrete app state used to witness C9. -/
def c9App : AppState :=
  ⟨none, some c9Ed, some "blob:origblob", ExportFormat.png, true, false⟩

/-- Concrete inline-image-free response parts used to witness C9. -/
def c9Parts : List ResponsePart := [⟨none⟩, ⟨none⟩]

/-- C9 witness: the no-op and failure guarantees instantiated at the concrete
state c9App with artifact c9Ed and response parts c9Parts. -/
theorem c9_remove_background_safe_witness :
    c9App.exportData = some c9Ed ∧ c9Ed.isVideo = false ∧
    (∀ p ∈ c9Parts, p.inlineData = none) ∧
    (removeBackground c9App (BGResponse.success c9Parts)
        = { c9App with isProcessing := false } ∧
     (removeBackground c9App (BGResponse.success c9Parts)).exportData
        = c9App.exportData ∧
     (removeBackground c9App (BGResponse.success c9Parts)).alerted
        = c9App.alerted ∧
     removeBackground c9App BGResponse.failure
        = { c9App with isProcessing := false, alerted := true } ∧
     (removeBackground c9App BGResponse.failure).exportData
        = c9App.exportData) :=
  ⟨rfl, rfl, by decide,
    c9_remove_background_safe c9App c9Ed c9Parts rfl rfl (by decide)⟩

end CircleCrop
